import Mathlib

/-!
Shallow embedding of the football-data collection pipeline
(`grab_epl_data` in dataProcessing-checkpoint.py).

The pipeline downloads an index page, selects the links labelled
"Premier League", trims the last 12 of them, and for each remaining URL
downloads a CSV table, tags it with a season identifier, prunes sparse
columns, parses the Date column day-first, drops rows with unparseable
dates, and finally concatenates the surviving tables, drops incomplete
columns and rows, and sorts by date.

The network and the CSV/HTML parsers are the environment: they enter the
model as the extracted link lists and a `fetch` function mapping a URL to
either an error (network or parse failure) or a parsed table.  A table
(pandas DataFrame) is a list of column names together with rows of cells;
a cell is missing (NaN/NaT), a raw string, or a parsed date.
-/

/-- Model of a pandas cell: missing (NaN/NaT), a raw string value, or a
parsed date encoded as a natural number `y * 10000 + m * 100 + d`. -/
inductive Cell where
  | missing : Cell
  | str : String → Cell
  | date : Nat → Cell
deriving Repr, DecidableEq

/-- A cell is present when it is not missing (pandas `notna`). -/
def Cell.isPresent : Cell → Bool
  | .missing => false
  | _ => true

/-- Model of a pandas DataFrame: ordered column names and rows of cells,
row cells aligned positionally with the column names. -/
structure DataFrame where
  cols : List String
  rows : List (List Cell)
deriving Repr, DecidableEq

/-- The empty DataFrame, `pd.DataFrame()`. -/
def DataFrame.emptyDF : DataFrame := ⟨[], []⟩

/-- Number of rows, `df.shape[0]`. -/
def DataFrame.numRows (df : DataFrame) : Nat := df.rows.length

/-- Cell of a row at a column position; a position beyond the row reads as
missing (pandas frames are rectangular, so this is only a total-function
convention). -/
def cellAt (r : List Cell) (j : Nat) : Cell := r.getD j .missing

/-- Pandas `df.empty`: true when there are no rows or no columns. -/
def DataFrame.isEmptyDF (df : DataFrame) : Bool :=
  df.rows.isEmpty || df.cols.isEmpty

/-- Count of present (non-missing) values in the column at position `j`,
the quantity pandas compares against `thresh` in `dropna`. -/
def colPresentCount (df : DataFrame) (j : Nat) : Nat :=
  df.rows.countP (fun r => (cellAt r j).isPresent)

/-- Column positions whose count of present values reaches the
threshold, the columns pandas `dropna(axis='columns', thresh=t)` keeps. -/
def keepThresh (df : DataFrame) (t : Int) : List Nat :=
  (List.range df.cols.length).filter
    (fun j => decide (t ≤ (colPresentCount df j : Int)))

/-- Pandas `df.dropna(axis='columns', thresh=t)`: keep exactly the column
positions whose count of present values is at least `t` (an `int` that may
be negative, in which case every column is kept). -/
def dropColsBelowThresh (df : DataFrame) (t : Int) : DataFrame :=
  { cols := (keepThresh df t).map (fun j => df.cols.getD j ""),
    rows := df.rows.map (fun r => (keepThresh df t).map (fun j => cellAt r j)) }

/-- Pandas `df[name] = value` with a scalar string: overwrite every column
labelled `name` when one exists, otherwise append a new column; every row
gets the constant value.  Rows are realigned to the column list. -/
def setStrColumn (df : DataFrame) (name val : String) : DataFrame :=
  if name ∈ df.cols then
    { cols := df.cols,
      rows := df.rows.map (fun r => (List.range df.cols.length).map
        (fun j => if df.cols.getD j "" = name then .str val else cellAt r j)) }
  else
    { cols := df.cols ++ [name],
      rows := df.rows.map (fun r =>
        (List.range df.cols.length).map (fun j => cellAt r j) ++ [.str val]) }

/-- Python `s.split(sep)` for a one-character separator, on a char list. -/
def splitOnChar (c : Char) : List Char → List (List Char)
  | [] => [[]]
  | x :: xs =>
    match splitOnChar c xs, decide (x = c) with
    | r, true => [] :: r
    | [], false => [[x]]
    | y :: ys, false => (x :: y) :: ys

/-- Python `s.split('/')` on a string. -/
def splitSlash (s : String) : List String :=
  (splitOnChar (Char.ofNat 47) s.data).map List.asString

/-- Decimal digits to a natural number; `none` when empty or a character
is not a digit. -/
def digitsToNat : List Char → Option Nat
  | [] => none
  | cs => cs.foldl
      (fun acc c =>
        match acc with
        | none => none
        | some n => if c.isDigit then some (n * 10 + (c.toNat - 48)) else none)
      (some 0)

/-- Pandas two-digit-year pivot: 69–99 mean 19xx, 00–68 mean 20xx. -/
def expandYear (y : Nat) (digitCount : Nat) : Nat :=
  if digitCount ≤ 2 then (if 69 ≤ y then 1900 + y else 2000 + y) else y

/-- Days in a month with the Gregorian leap rule. -/
def daysInMonth (y m : Nat) : Nat :=
  if m = 2 then (if (y % 4 = 0 ∧ y % 100 ≠ 0) ∨ y % 400 = 0 then 29 else 28)
  else if m = 4 ∨ m = 6 ∨ m = 9 ∨ m = 11 then 30 else 31

/-- Models `pd.to_datetime(value, dayfirst=True)` on a single string for
the slash-separated day-first format `d/m/y` the data source uses: the
FIRST component is the day, the second the month; two-digit years expand
with the pandas pivot; an invalid calendar date or any other shape fails.
The result encodes the date as `y * 10000 + m * 100 + d`, which orders
chronologically. -/
def toDatetimeDayfirst (s : String) : Option Nat :=
  match (splitOnChar (Char.ofNat 47) s.data).map digitsToNat with
  | [some d, some m, some y] =>
    let yearDigits := (splitOnChar (Char.ofNat 47) s.data).getD 2 [] |>.length
    let y := expandYear y yearDigits
    if 1 ≤ m ∧ m ≤ 12 ∧ 1 ≤ d ∧ d ≤ daysInMonth y m then
      some (y * 10000 + m * 100 + d)
    else none
  | _ => none

/-- One cell under `pd.to_datetime(·, dayfirst=True, errors='coerce')`:
missing stays missing (NaT), a string becomes a date when it parses and
missing (NaT) when it does not — never an error —, a date passes through. -/
def parseDateCell : Cell → Cell
  | .missing => .missing
  | .str s =>
    match toDatetimeDayfirst s with
    | some d => .date d
    | none => .missing
  | .date d => .date d

/-- The message of the `KeyError` raised when the Date column is absent. -/
def keyErrorDateMsg : String := "KeyError: Date"

/-- The statement `df['Date'] = pd.to_datetime(df['Date'], dayfirst=True,
errors='coerce')`: looking the column up raises `KeyError` when no column
is labelled Date; otherwise every Date-labelled cell is parsed. -/
def parseDates (df : DataFrame) : Except String DataFrame :=
  if "Date" ∈ df.cols then
    .ok { cols := df.cols,
          rows := df.rows.map (fun r => (List.range df.cols.length).map
            (fun j => if df.cols.getD j "" = "Date" then parseDateCell (cellAt r j)
                      else cellAt r j)) }
  else .error keyErrorDateMsg

/-- Pandas `df.dropna(subset=names)`: keep the rows that are present in
every column labelled by one of `names`. -/
def dropnaSubset (df : DataFrame) (names : List String) : DataFrame :=
  { cols := df.cols,
    rows := df.rows.filter (fun r => (List.range df.cols.length).all
      (fun j => !names.contains (df.cols.getD j "") || (cellAt r j).isPresent)) }

/-- Column positions with no missing cell in any row, the columns pandas
`dropna(axis=1)` keeps. -/
def keepAllPresent (df : DataFrame) : List Nat :=
  (List.range df.cols.length).filter
    (fun j => df.rows.all (fun r => (cellAt r j).isPresent))

/-- Pandas `df.dropna(axis=1)`: keep exactly the column positions with no
missing cell in any row. -/
def dropnaColumnsAny (df : DataFrame) : DataFrame :=
  { cols := (keepAllPresent df).map (fun j => df.cols.getD j ""),
    rows := df.rows.map (fun r => (keepAllPresent df).map (fun j => cellAt r j)) }

/-- Pandas `df.dropna()`: keep exactly the rows with no missing cell. -/
def dropnaRowsAny (df : DataFrame) : DataFrame :=
  { cols := df.cols,
    rows := df.rows.filter (fun r => (List.range df.cols.length).all
      (fun j => (cellAt r j).isPresent)) }

/-- Sort key flag putting missing (NaT) last, pandas `na_position='last'`. -/
def Cell.naLast : Cell → Nat
  | .missing => 1
  | _ => 0

/-- Numeric sort key of a cell in a date column. -/
def dateKey : Cell → Nat
  | .date d => d
  | _ => 0

/-- Total comparison used by `sort_values` on a date column: dates in
chronological order, missing values last. -/
def dateLe (a b : Cell) : Bool :=
  Nat.blt a.naLast b.naLast ||
    (a.naLast == b.naLast && Nat.ble (dateKey a) (dateKey b))

/-- Pandas `df.sort_values(by=byCol)`: raises `KeyError` when no column is
labelled `byCol`, otherwise reorders the rows non-decreasingly by the
first column with that label. -/
def sortValues (df : DataFrame) (byCol : String) : Except String DataFrame :=
  match (List.range df.cols.length).find? (fun j => df.cols.getD j "" == byCol) with
  | none => .error ("KeyError: " ++ byCol)
  | some j =>
    .ok { cols := df.cols,
          rows := df.rows.insertionSort
            (fun r1 r2 => dateLe (cellAt r1 j) (cellAt r2 j) = true) }

/-- Union of column names in order of first appearance, as pandas
`concat` aligns frames with differing columns. -/
def unionCols (acc : List String) (cs : List String) : List String :=
  acc ++ cs.filter (fun c => !acc.contains c)

/-- Column list of the concatenation of several frames. -/
def allCols (dfs : List DataFrame) : List String :=
  dfs.foldl (fun a d => unionCols a d.cols) []

/-- Reindex one row of `df` to the column list `cs`: a column `df` lacks
is filled with missing, as pandas `concat` does. -/
def reindexRow (cs : List String) (df : DataFrame) (r : List Cell) : List Cell :=
  cs.map (fun c =>
    match (List.range df.cols.length).find? (fun j => df.cols.getD j "" == c) with
    | some j => cellAt r j
    | none => .missing)

/-- Pandas `pd.concat(dfs, ignore_index=True)`: all rows of every frame in
order, aligned on the union of the column names. -/
def concatIgnoreIndex (dfs : List DataFrame) : DataFrame :=
  { cols := allCols dfs,
    rows := (dfs.map (fun d => d.rows.map (reindexRow (allCols dfs) d))).flatten }

/-- The fixed base URL prepended to every selected link. -/
def baseUrl : String := "http://www.football-data.co.uk/"

/-- The list comprehension selecting the Premier League links:
`[prefix + links[i] for i, text in enumerate(links_text) if text == 'Premier League']`. -/
def selectDataUrls (links linksText : List String) : List String :=
  ((linksText.zip links).filter (fun p => p.1 == "Premier League")).map
    (fun p => baseUrl ++ p.2)

/-- The trim `data_urls[:-12]` removing the seasons without match stats;
on a list of at most 12 elements the result is empty. -/
def trimUrls (l : List String) : List String := l.take (l.length - 12)

/-- Python `url.split('/')[4]`, the season identifier: the 5th
slash-delimited component, `none` when the URL has fewer components
(an uncaught `IndexError` in the source). -/
def seasonOf (url : String) : Option String := (splitSlash url).get? 4

/-- The body of the per-season `try` block: download/parse the CSV, tag
the season column, prune columns missing in more than 30 rows, parse the
Date column day-first coercing failures to missing, and drop rows whose
date is missing.  Any error (network, parse, missing Date column)
propagates to the surrounding handler. -/
def cleanSeason (fetch : String → Except String DataFrame)
    (url season : String) : Except String DataFrame :=
  match fetch url with
  | .error e => .error e
  | .ok t0 =>
    let t1 := setStrColumn t0 "season" season
    let t2 := dropColsBelowThresh t1 ((t1.numRows : Int) - 30)
    match parseDates t2 with
    | .error e => .error e
    | .ok t3 => .ok (dropnaSubset t3 ["Date"])

/-- One iteration of the season loop: derive the season identifier
(uncaught `IndexError` when the URL is too short), log the progress line,
run the `try` block; an error is caught and logged naming the URL, an
empty cleaned table is skipped with a log line, a non-empty one is the
season's contribution.  Returns the optional table and the printed
lines. -/
def processUrl (fetch : String → Except String DataFrame) (url : String) :
    Except String (Option DataFrame × List String) :=
  match seasonOf url with
  | none => .error "IndexError: list index out of range"
  | some season =>
    match cleanSeason fetch url season with
    | .error e =>
      .ok (none, [s!"Getting data for season {season}",
                  s!"Failed to process {url}: {e}"])
    | .ok t =>
      if t.isEmptyDF then
        .ok (none, [s!"Getting data for season {season}",
                    s!"Skipped season {season} due to empty or invalid data."])
      else
        .ok (some t, [s!"Getting data for season {season}"])

/-- The season loop: accumulate the valid per-season tables (`df_list`)
and the printed lines over all URLs, propagating only uncaught errors. -/
def processAll (fetch : String → Except String DataFrame) :
    List String → Except String (List DataFrame × List String)
  | [] => .ok ([], [])
  | url :: rest =>
    match processUrl fetch url with
    | .error e => .error e
    | .ok (o, g) =>
      match processAll fetch rest with
      | .error e => .error e
      | .ok (ds, gs) =>
        .ok ((match o with | some t => t :: ds | none => ds), g ++ gs)

/-- The whole pipeline from the extracted link lists: select the Premier
League URLs, trim the last 12, run the season loop, and either report
that no data was collected (empty frame) or concatenate, drop columns
with any missing value, drop rows with any missing value, and sort by
Date.  Returns the Combined Table with the printed lines, or the uncaught
error. -/
def grab_epl_data (links linksText : List String)
    (fetch : String → Except String DataFrame) :
    Except String (DataFrame × List String) :=
  let dataUrls := trimUrls (selectDataUrls links linksText)
  match processAll fetch dataUrls with
  | .error e => .error e
  | .ok (dfList, logs) =>
    if dfList.isEmpty then
      .ok (DataFrame.emptyDF, logs ++ ["No data was collected."])
    else
      match sortValues (dropnaRowsAny (dropnaColumnsAny (concatIgnoreIndex dfList))) "Date" with
      | .error e => .error e
      | .ok df => .ok (df, logs ++ ["Finished grabbing data."])

/-- No cell of any retained column of any row is missing. -/
def noMissing (df : DataFrame) : Prop :=
  ∀ r ∈ df.rows, ∀ j < df.cols.length, (cellAt r j).isPresent = true

/-- The rows are ordered non-decreasingly by the column at position `j`. -/
def sortedByCol (df : DataFrame) (j : Nat) : Prop :=
  df.rows.Pairwise (fun r1 r2 => dateLe (cellAt r1 j) (cellAt r2 j) = true)

/-- Every cell of every column labelled season holds the given season
identifier in every row. -/
def seasonTagged (df : DataFrame) (season : String) : Prop :=
  ∀ j, j < df.cols.length → df.cols.getD j "" = "season" →
    ∀ r ∈ df.rows, cellAt r j = .str season

/-! ### Concrete fixtures

Small concrete inputs (an index page's extracted links and a fetch
environment) used to exercise the pipeline on closed instances. -/

/-- A season resource URL whose download succeeds with a clean table. -/
def urlW : String := "http://www.football-data.co.uk/mmz4281/9394/E0.csv"

/-- A season resource URL whose download fails with a network error. -/
def urlErrW : String := "http://www.football-data.co.uk/mmz4281/9495/E0.csv"

/-- A season resource URL whose table has no Date column. -/
def urlNoDateW : String := "http://www.football-data.co.uk/mmz4281/9596/E0.csv"

/-- A season resource URL whose table loses every row to date cleaning. -/
def urlEmptyW : String := "http://www.football-data.co.uk/mmz4281/9697/E0.csv"

/-- A small well-formed season table. -/
def dfW : DataFrame :=
  { cols := ["Date", "FTHG"],
    rows := [[.str "14/08/21", .str "3"], [.str "02/01/95", .str "1"]] }

/-- A season table with no Date column. -/
def dfNoDateW : DataFrame := { cols := ["FTHG"], rows := [[.str "3"]] }

/-- A season table whose only date is unparseable. -/
def dfBadDatesW : DataFrame := { cols := ["Date"], rows := [[.str "junk"]] }

/-- A deterministic fetch environment for the fixture URLs. -/
def fetchW : String → Except String DataFrame := fun u =>
  if u = urlW then .ok dfW
  else if u = urlNoDateW then .ok dfNoDateW
  else if u = urlEmptyW then .ok dfBadDatesW
  else .error "HTTPError: 404"

/-- Thirteen extracted link targets, the first for `urlW`. -/
def linksW : List String :=
  "mmz4281/9394/E0.csv" :: List.replicate 12 "mmz4281/9495/E0.csv"

/-- Thirteen Premier League labels parallel to `linksW`. -/
def linksTextW : List String := List.replicate 13 "Premier League"

/-- The cleaned per-season table the fixture produces for `urlW`. -/
def dfCleanW : DataFrame :=
  { cols := ["Date", "FTHG", "season"],
    rows := [[.date 20210814, .str "3", .str "9394"],
             [.date 19950102, .str "1", .str "9394"]] }

/-- The Combined Table the fixture run produces. -/
def dfOutW : DataFrame :=
  { cols := ["Date", "FTHG", "season"],
    rows := [[.date 19950102, .str "1", .str "9394"],
             [.date 20210814, .str "3", .str "9394"]] }

/-! ### Helper lemmas -/

theorem getD_map_getElem {α : Type} (g : Nat → α) (ks : List Nat) (d : α)
    {j : Nat} (h : j < ks.length) :
    (ks.map g).getD j d = g ks[j] := by
  rw [List.getD_eq_getElem _ _ (by simpa using h), List.getElem_map]

theorem cellAt_map_range (f : Nat → Cell) {n j : Nat} (h : j < n) :
    cellAt ((List.range n).map f) j = f j := by
  rw [cellAt, List.getD_eq_getElem _ _ (by simpa using h), List.getElem_map,
    List.getElem_range]

theorem mem_keepAllPresent {df : DataFrame} {j : Nat} (h : j ∈ keepAllPresent df) :
    j < df.cols.length ∧ ∀ r ∈ df.rows, (cellAt r j).isPresent = true := by
  rcases List.mem_filter.mp h with ⟨hr, hp⟩
  exact ⟨List.mem_range.mp hr, List.all_eq_true.mp hp⟩

theorem mem_keepThresh {df : DataFrame} {t : Int} {j : Nat} :
    j ∈ keepThresh df t ↔ j < df.cols.length ∧ t ≤ (colPresentCount df j : Int) := by
  simp [keepThresh, List.mem_filter, List.mem_range]

theorem noMissing_dropnaColumnsAny (df : DataFrame) :
    noMissing (dropnaColumnsAny df) := by
  intro r' hr' j hj
  simp only [dropnaColumnsAny] at hr' hj
  rcases List.mem_map.mp hr' with ⟨r, hr, rfl⟩
  rw [List.length_map] at hj
  rw [show cellAt ((keepAllPresent df).map (fun j => cellAt r j)) j = cellAt r (keepAllPresent df)[j] from
    getD_map_getElem _ _ _ hj]
  exact (mem_keepAllPresent (List.getElem_mem hj)).2 r hr

theorem dropnaRowsAny_of_noMissing {df : DataFrame} (h : noMissing df) :
    dropnaRowsAny df = df := by
  have : df.rows.filter (fun r => (List.range df.cols.length).all
      (fun j => (cellAt r j).isPresent)) = df.rows := by
    rw [List.filter_eq_self]
    intro r hr
    rw [List.all_eq_true]
    intro j hj
    exact h r hr j (List.mem_range.mp hj)
  simp [dropnaRowsAny, this]

theorem noMissing_dropnaRowsAny {df : DataFrame} (h : noMissing df) :
    noMissing (dropnaRowsAny df) := by
  intro r hr j hj
  exact h r (List.mem_of_mem_filter hr) j hj

theorem dateLe_trans (a b c : Cell) (h1 : dateLe a b = true) (h2 : dateLe b c = true) :
    dateLe a c = true := by
  simp only [dateLe, Bool.or_eq_true, Bool.and_eq_true, Nat.blt_eq, Nat.ble_eq,
    beq_iff_eq] at h1 h2 ⊢
  omega

theorem dateLe_total (a b : Cell) : (dateLe a b || dateLe b a) = true := by
  simp only [dateLe, Bool.or_eq_true, Bool.and_eq_true, Nat.blt_eq, Nat.ble_eq,
    beq_iff_eq]
  omega

theorem sortValues_ok {df df' : DataFrame} {b : String}
    (h : sortValues df b = .ok df') :
    ∃ j, j < df.cols.length ∧ df.cols.getD j "" = b ∧
      df'.cols = df.cols ∧
      df'.rows = df.rows.insertionSort
        (fun r1 r2 => dateLe (cellAt r1 j) (cellAt r2 j) = true) := by
  rw [sortValues] at h
  cases hf : (List.range df.cols.length).find? (fun j => df.cols.getD j "" == b) with
  | none => rw [hf] at h; exact absurd h (by simp)
  | some j =>
    rw [hf] at h
    refine ⟨j, List.mem_range.mp (List.mem_of_find?_eq_some hf),
      by simpa using List.find?_some hf, ?_, ?_⟩ <;>
      cases h <;> rfl

theorem sortedByCol_sortValues {df df' : DataFrame} {b : String}
    (h : sortValues df b = .ok df') :
    ∃ j, j < df'.cols.length ∧ df'.cols.getD j "" = b ∧ sortedByCol df' j := by
  rcases sortValues_ok h with ⟨j, hj, hb, hcols, hrows⟩
  refine ⟨j, by rw [hcols]; exact hj, by rw [hcols]; exact hb, ?_⟩
  rw [sortedByCol, hrows]
  exact @List.sorted_insertionSort _ _ _
    ⟨fun r1 r2 => (Bool.or_eq_true _ _).mp (dateLe_total (cellAt r1 j) (cellAt r2 j))⟩
    ⟨fun r1 r2 r3 => dateLe_trans (cellAt r1 j) (cellAt r2 j) (cellAt r3 j)⟩
    df.rows

theorem noMissing_sortValues {df df' : DataFrame} {b : String}
    (h : sortValues df b = .ok df') (hm : noMissing df) : noMissing df' := by
  rcases sortValues_ok h with ⟨j, _, _, hcols, hrows⟩
  intro r hr i hi
  rw [hrows] at hr
  rw [hcols] at hi
  exact hm r ((List.perm_insertionSort _ _).subset hr) i hi

theorem processAll_append (fetch : String → Except String DataFrame)
    (l1 l2 : List String) (d1 d2 : List DataFrame) (g1 g2 : List String)
    (h1 : processAll fetch l1 = .ok (d1, g1))
    (h2 : processAll fetch l2 = .ok (d2, g2)) :
    processAll fetch (l1 ++ l2) = .ok (d1 ++ d2, g1 ++ g2) := by
  induction l1 generalizing d1 g1 with
  | nil =>
    rw [processAll] at h1
    cases h1
    simpa using h2
  | cons url rest ih =>
    rw [List.cons_append, processAll]
    rw [processAll] at h1
    cases hu : processUrl fetch url with
    | error e => rw [hu] at h1; simp at h1
    | ok og =>
      obtain ⟨o, g⟩ := og
      rw [hu] at h1
      cases hr : processAll fetch rest with
      | error e => rw [hr] at h1; simp at h1
      | ok dg =>
        obtain ⟨ds, gs⟩ := dg
        rw [hr] at h1
        simp only [] at h1
        cases h1
        rw [ih ds gs hr]
        cases o <;> simp

theorem processUrl_fetch_error {fetch : String → Except String DataFrame}
    {url season e : String}
    (hs : seasonOf url = some season) (hf : fetch url = .error e) :
    processUrl fetch url = .ok (none, [s!"Getting data for season {season}",
      s!"Failed to process {url}: {e}"]) := by
  simp [processUrl, hs, cleanSeason, hf]

/-- C5: a per-season download or parse error is caught per season: the
loop logs a line naming the offending URL and the error, the season
contributes no table, and the results of all the other seasons are
exactly what they would have been without it. -/
theorem seasonError_caught_others_unaffected
    (fetch : String → Except String DataFrame) (l1 l2 : List String)
    (url e season : String) (d1 d2 : List DataFrame) (g1 g2 : List String)
    (hs : seasonOf url = some season) (hf : fetch url = .error e)
    (h1 : processAll fetch l1 = .ok (d1, g1))
    (h2 : processAll fetch l2 = .ok (d2, g2)) :
    processAll fetch (l1 ++ url :: l2) =
      .ok (d1 ++ d2, g1 ++ ([s!"Getting data for season {season}",
        s!"Failed to process {url}: {e}"] ++ g2)) := by
  have hmid : processAll fetch (url :: l2) =
      .ok (d2, [s!"Getting data for season {season}",
        s!"Failed to process {url}: {e}"] ++ g2) := by
    rw [processAll, processUrl_fetch_error hs hf, h2]
  exact processAll_append fetch l1 (url :: l2) d1 d2 g1 _ h1 hmid

/-- C7: when the accumulator of valid per-season tables ends up empty —
in particular when zero season URLs were selected — the pipeline does not
fail: it logs that no data was collected and returns an empty table. -/
theorem emptyAccumulator_graceful (links linksText : List String)
    (fetch : String → Except String DataFrame) (logs : List String)
    (h : processAll fetch (trimUrls (selectDataUrls links linksText)) = .ok ([], logs)) :
    grab_epl_data links linksText fetch =
      .ok (DataFrame.emptyDF, logs ++ ["No data was collected."]) := by
  simp [grab_epl_data, h]

/-- C8: the pipeline is deterministic: two runs on identical inputs (the
same extracted index-page links and the same per-season resources) return
identical results. -/
theorem pipeline_deterministic (links1 links2 linksText1 linksText2 : List String)
    (fetch1 fetch2 : String → Except String DataFrame)
    (h1 : links1 = links2) (h2 : linksText1 = linksText2) (h3 : fetch1 = fetch2) :
    grab_epl_data links1 linksText1 fetch1 = grab_epl_data links2 linksText2 fetch2 := by
  rw [h1, h2, h3]

/-- C10: once the final merge's column drop has removed every column
containing a missing value, the remaining table has no missing cell, so
the subsequent row-level drop removes no rows: the composition equals the
column drop alone. -/
theorem finalRowDrop_noop (df : DataFrame) :
    dropnaRowsAny (dropnaColumnsAny df) = dropnaColumnsAny df :=
  dropnaRowsAny_of_noMissing (noMissing_dropnaColumnsAny df)

/-- C1: every run returning a non-empty Combined Table returns a table
with no missing value in any cell of any retained column, whose rows are
ordered non-decreasingly by the Date column. -/
theorem combinedTable_complete_sorted (links linksText : List String)
    (fetch : String → Except String DataFrame) (df : DataFrame) (logs : List String)
    (h : grab_epl_data links linksText fetch = .ok (df, logs))
    (hne : df.rows ≠ []) :
    noMissing df ∧
      ∃ j, j < df.cols.length ∧ df.cols.getD j "" = "Date" ∧ sortedByCol df j := by
  simp only [grab_epl_data] at h
  cases hpa : processAll fetch (trimUrls (selectDataUrls links linksText)) with
  | error e => rw [hpa] at h; simp at h
  | ok p =>
    obtain ⟨dfList, logs0⟩ := p
    rw [hpa] at h
    cases hE : dfList.isEmpty with
    | true =>
      simp only [hE] at h
      simp only [if_true, Except.ok.injEq, Prod.mk.injEq] at h
      exact absurd (h.1.symm ▸ rfl : df.rows = []) hne
    | false =>
      simp only [hE, Bool.false_eq_true, if_false] at h
      cases hs : sortValues (dropnaRowsAny (dropnaColumnsAny (concatIgnoreIndex dfList))) "Date" with
      | error e => rw [hs] at h; simp at h
      | ok df3 =>
        rw [hs] at h
        simp only [Except.ok.injEq, Prod.mk.injEq] at h
        have hdf : df3 = df := h.1
        subst hdf
        have hm : noMissing (dropnaRowsAny (dropnaColumnsAny (concatIgnoreIndex dfList))) :=
          noMissing_dropnaRowsAny (noMissing_dropnaColumnsAny _)
        exact ⟨noMissing_sortValues hs hm, sortedByCol_sortValues hs⟩

/-- C2: on a season table with `r` rows, the column-pruning step removes
exactly the columns with fewer than `r - 30` present values: such a
column's label is absent from the cleaned table, and every column with at
least `r - 30` present values keeps its label in the cleaned table
(stated for tables with distinct column labels, as pandas mangles
duplicate CSV headers). -/
theorem seasonPruning_exact (df : DataFrame) (hnd : df.cols.Nodup)
    (j : Nat) (hj : j < df.cols.length) :
    (((colPresentCount df j : Int) < (df.numRows : Int) - 30) →
      df.cols.getD j "" ∉ (dropColsBelowThresh df ((df.numRows : Int) - 30)).cols) ∧
    (((df.numRows : Int) - 30 ≤ (colPresentCount df j : Int)) →
      df.cols.getD j "" ∈ (dropColsBelowThresh df ((df.numRows : Int) - 30)).cols) := by
  constructor
  · intro hlt hmem
    rcases List.mem_map.mp hmem with ⟨i, hi, hEq⟩
    rcases mem_keepThresh.mp hi with ⟨hilen, hile⟩
    have hij : i = j := by
      have h1 : df.cols.get ⟨i, hilen⟩ = df.cols.get ⟨j, hj⟩ := by
        rw [List.get_eq_getElem, List.get_eq_getElem,
          ← List.getD_eq_getElem df.cols "" hilen, ← List.getD_eq_getElem df.cols "" hj]
        exact hEq
      simpa using congrArg Fin.val ((List.Nodup.get_inj_iff hnd).mp h1)
    subst hij
    omega
  · intro hge
    exact List.mem_map.mpr ⟨j, mem_keepThresh.mpr ⟨hj, hge⟩, rfl⟩

theorem filter_zip_length : ∀ (ts ls : List String), ts.length = ls.length →
    ((ts.zip ls).filter (fun p => p.1 == "Premier League")).length
      = ts.count "Premier League" := by
  intro ts
  induction ts with
  | nil => intro ls h; simp
  | cons t ts ih =>
    intro ls h
    cases ls with
    | nil => simp at h
    | cons l ls =>
      simp only [List.zip_cons_cons, List.filter_cons, List.count_cons]
      cases ht : (t == "Premier League") with
      | true => simp [ht, ih ls (by simpa using h)]
      | false => simp [ht, ih ls (by simpa using h)]

/-- C3: when the extracted link targets and labels are parallel sequences
and exactly `m` labels equal the target label, the selected URL sequence
has length `m` before the trim and length `max(0, m - 12)` after it; in
particular the trimmed sequence is empty — with no error — when `m` is
below 12. -/
theorem urlSelector_lengths (links linksText : List String)
    (h : links.length = linksText.length) :
    (selectDataUrls links linksText).length = linksText.count "Premier League" ∧
    ((trimUrls (selectDataUrls links linksText)).length : Int)
      = max 0 ((linksText.count "Premier League" : Int) - 12) ∧
    (linksText.count "Premier League" < 12 →
      trimUrls (selectDataUrls links linksText) = []) := by
  have hm : (selectDataUrls links linksText).length = linksText.count "Premier League" := by
    rw [selectDataUrls, List.length_map]
    exact filter_zip_length linksText links h.symm
  have hlen : (trimUrls (selectDataUrls links linksText)).length
      = linksText.count "Premier League" - 12 := by
    rw [trimUrls, List.length_take, hm]
    omega
  refine ⟨hm, ?_, ?_⟩
  · rw [hlen]; omega
  · intro hlt
    exact List.length_eq_zero.mp (by rw [hlen]; omega)

theorem parseDateCell_present {c : Cell} (h : (parseDateCell c).isPresent = true) :
    ∃ d, parseDateCell c = .date d := by
  cases c with
  | missing => simp [parseDateCell, Cell.isPresent] at h
  | str s =>
    rw [parseDateCell] at h ⊢
    cases ht : toDatetimeDayfirst s with
    | some d => exact ⟨d, rfl⟩
    | none => rw [ht] at h; simp [Cell.isPresent] at h
  | date d => exact ⟨d, rfl⟩

theorem parseDates_ok {df df' : DataFrame} (h : parseDates df = .ok df') :
    "Date" ∈ df.cols ∧ df'.cols = df.cols ∧
    df'.rows = df.rows.map (fun r => (List.range df.cols.length).map
      (fun j => if df.cols.getD j "" = "Date" then parseDateCell (cellAt r j)
                else cellAt r j)) := by
  rw [parseDates] at h
  by_cases hD : "Date" ∈ df.cols
  · rw [if_pos hD] at h
    cases h
    exact ⟨hD, rfl, rfl⟩
  · rw [if_neg hD] at h
    cases h

theorem cleanSeason_ok {fetch : String → Except String DataFrame}
    {url season : String} {t : DataFrame}
    (h : cleanSeason fetch url season = .ok t) :
    ∃ t0 t3, fetch url = .ok t0 ∧
      parseDates (dropColsBelowThresh (setStrColumn t0 "season" season)
        (((setStrColumn t0 "season" season).numRows : Int) - 30)) = .ok t3 ∧
      t = dropnaSubset t3 ["Date"] := by
  unfold cleanSeason at h
  split at h
  · exact absurd h (by simp)
  · next t0 hf =>
    dsimp only at h
    split at h
    · exact absurd h (by simp)
    · next t3 hp =>
      exact ⟨t0, t3, hf, hp, (Except.ok.inj h).symm⟩

/-- C4: the per-season date step parses the Date column day-first (the
first slash component is the day), coerces every unparseable value to
missing instead of raising, and then removes every row whose date is
missing, so every row of a cleaned per-season table carries a
successfully parsed date in each Date-labelled column. -/
theorem dateParsing_dayfirst_coerce_filter :
    (∀ (fetch : String → Except String DataFrame) (url season : String) (t : DataFrame),
      cleanSeason fetch url season = .ok t →
        "Date" ∈ t.cols ∧
        ∀ r ∈ t.rows, ∀ j, j < t.cols.length → t.cols.getD j "" = "Date" →
          ∃ d, cellAt r j = Cell.date d) ∧
    (∀ s, toDatetimeDayfirst s = none → parseDateCell (Cell.str s) = Cell.missing) ∧
    toDatetimeDayfirst "02/01/2000" = some 20000102 := by
  refine ⟨?_, fun s hs => by simp [parseDateCell, hs], by decide⟩
  · intro fetch url season t h
    rcases cleanSeason_ok h with ⟨t0, t3, hf, hp, rfl⟩
    rcases parseDates_ok hp with ⟨hD, hcols, hrows⟩
    have hcolsSub : (dropnaSubset t3 ["Date"]).cols = t3.cols := rfl
    constructor
    · rw [hcolsSub, hcols]; exact hD
    · intro r hr j hjlen hname
      have hr3 : r ∈ t3.rows := List.mem_of_mem_filter hr
      have hpred := (List.mem_filter.mp hr).2
      rw [hrows] at hr3
      rcases List.mem_map.mp hr3 with ⟨r0, hr0, rfl⟩
      rw [hcolsSub, hcols] at hjlen
      have hname2 : (dropColsBelowThresh (setStrColumn t0 "season" season)
          (((setStrColumn t0 "season" season).numRows : Int) - 30)).cols.getD j "" = "Date" := by
        rw [hcolsSub, hcols] at hname
        exact hname
      have hcell := cellAt_map_range
        (fun j => if (dropColsBelowThresh (setStrColumn t0 "season" season)
            (((setStrColumn t0 "season" season).numRows : Int) - 30)).cols.getD j "" = "Date"
          then parseDateCell (cellAt r0 j) else cellAt r0 j) hjlen
      dsimp only at hcell
      rw [if_pos hname2] at hcell
      have hj3 : j < t3.cols.length := by rw [hcols]; exact hjlen
      have hpres := (List.all_eq_true.mp hpred) j (List.mem_range.mpr hj3)
      have hDname : t3.cols.getD j "" = "Date" := by rw [hcols]; exact hname2
      rw [hDname] at hpres
      simp only [List.contains_cons, beq_self_eq_true, Bool.true_or, Bool.not_true,
        Bool.false_or] at hpres
      rw [hcell] at hpres
      rcases parseDateCell_present hpres with ⟨d, hd⟩
      exact ⟨d, by rw [hcell, hd]⟩

theorem getD_mem {l : List String} {j : Nat} (h : j < l.length) : l.getD j "" ∈ l := by
  rw [List.getD_eq_getElem _ _ h]
  exact List.getElem_mem h

theorem setStrColumn_tagged (df : DataFrame) (season : String) :
    seasonTagged (setStrColumn df "season" season) season := by
  intro j hj hname r hr
  by_cases hmem : "season" ∈ df.cols
  · simp only [setStrColumn, if_pos hmem] at hj hname hr
    rcases List.mem_map.mp hr with ⟨r0, hr0, rfl⟩
    rw [cellAt_map_range _ hj]
    rw [if_pos hname]
  · simp only [setStrColumn, if_neg hmem] at hj hname hr
    rcases List.mem_map.mp hr with ⟨r0, hr0, rfl⟩
    rw [List.length_append, List.length_singleton] at hj
    rcases (by omega : j < df.cols.length ∨ j = df.cols.length) with hlt | heq
    · rw [List.getD_append _ _ _ _ hlt] at hname
      exact absurd (hname ▸ getD_mem hlt) hmem
    · subst heq
      have hlenpre : ((List.range df.cols.length).map (fun j => cellAt r0 j)).length
          = df.cols.length := by simp
      rw [cellAt, List.getD_eq_getElem _ _ (by simp),
        List.getElem_append_right (by rw [hlenpre])]
      simp [hlenpre]

theorem setStrColumn_mem (df : DataFrame) (season : String) :
    "season" ∈ (setStrColumn df "season" season).cols := by
  by_cases hmem : "season" ∈ df.cols
  · simp only [setStrColumn, if_pos hmem]
    exact hmem
  · simp only [setStrColumn, if_neg hmem]
    exact List.mem_append_right _ (List.mem_singleton.mpr rfl)

theorem dropColsBelowThresh_tagged {df : DataFrame} {season : String}
    (h : seasonTagged df season) (t : Int) :
    seasonTagged (dropColsBelowThresh df t) season := by
  intro j hj hname r hr
  simp only [dropColsBelowThresh] at hj hname hr
  rw [List.length_map] at hj
  rcases List.mem_map.mp hr with ⟨r0, hr0, rfl⟩
  rw [getD_map_getElem _ _ _ hj] at hname
  rw [show cellAt ((keepThresh df t).map (fun j => cellAt r0 j)) j
      = cellAt r0 (keepThresh df t)[j] from getD_map_getElem _ _ _ hj]
  exact h _ (mem_keepThresh.mp (List.getElem_mem hj)).1 hname r0 hr0

theorem tagged_mem_thresh {df : DataFrame} {season : String}
    (h : seasonTagged df season) (hm : "season" ∈ df.cols) :
    "season" ∈ (dropColsBelowThresh df ((df.numRows : Int) - 30)).cols := by
  rcases List.mem_iff_getElem.mp hm with ⟨i, hi, hEq⟩
  have hgetD : df.cols.getD i "" = "season" := by
    rw [List.getD_eq_getElem _ _ hi, hEq]
  have hcount : colPresentCount df i = df.numRows := by
    rw [colPresentCount, DataFrame.numRows]
    exact List.countP_eq_length.mpr
      (fun r hr => by rw [h i hi hgetD r hr]; rfl)
  refine List.mem_map.mpr ⟨i, mem_keepThresh.mpr ⟨hi, ?_⟩, hgetD⟩
  rw [hcount]
  omega

theorem parseDates_tagged {df df' : DataFrame} {season : String}
    (hp : parseDates df = .ok df') (h : seasonTagged df season) :
    seasonTagged df' season := by
  rcases parseDates_ok hp with ⟨_, hcols, hrows⟩
  intro j hj hname r hr
  rw [hcols] at hj hname
  rw [hrows] at hr
  rcases List.mem_map.mp hr with ⟨r0, hr0, rfl⟩
  rw [cellAt_map_range _ hj]
  rw [if_neg (by rw [hname]; intro hcon; exact absurd hcon (by decide))]
  exact h j hj hname r0 hr0

theorem dropnaSubset_tagged {df : DataFrame} {season : String} (names : List String)
    (h : seasonTagged df season) : seasonTagged (dropnaSubset df names) season := by
  intro j hj hname r hr
  exact h j hj hname r (List.mem_of_mem_filter hr)

theorem processUrl_ok_some {fetch : String → Except String DataFrame}
    {url : String} {t : DataFrame} {logs : List String}
    (h : processUrl fetch url = .ok (some t, logs)) :
    ∃ season, seasonOf url = some season ∧ cleanSeason fetch url season = .ok t ∧
      t.isEmptyDF = false ∧ logs = [s!"Getting data for season {season}"] := by
  unfold processUrl at h
  split at h
  · exact absurd h (by simp)
  · next season hs =>
    split at h
    · simp at h
    · next t' hc =>
      split at h
      · simp at h
      · next hemp =>
        simp only [Except.ok.injEq, Prod.mk.injEq, Option.some.injEq] at h
        obtain ⟨rfl, rfl⟩ := h
        exact ⟨season, hs, hc, Bool.not_eq_true _ ▸ hemp, rfl⟩

/-- C6: every per-season table appended to the accumulator is non-empty
and carries a season column whose value in every row is the identifier
from the 5th slash-delimited URL component; a table that is empty after
cleaning is not appended and a skipped line is logged instead. -/
theorem appendedTables_nonEmpty_tagged :
    (∀ (fetch : String → Except String DataFrame) (url season : String)
        (t : DataFrame) (logs : List String),
      seasonOf url = some season →
      processUrl fetch url = .ok (some t, logs) →
        t.isEmptyDF = false ∧ "season" ∈ t.cols ∧
        ∀ j, j < t.cols.length → t.cols.getD j "" = "season" →
          ∀ r ∈ t.rows, cellAt r j = .str season) ∧
    (∀ (fetch : String → Except String DataFrame) (url season : String)
        (t : DataFrame),
      seasonOf url = some season →
      cleanSeason fetch url season = .ok t → t.isEmptyDF = true →
        processUrl fetch url = .ok (none,
          [s!"Getting data for season {season}",
           s!"Skipped season {season} due to empty or invalid data."])) := by
  constructor
  · intro fetch url season t logs hs h
    rcases processUrl_ok_some h with ⟨season', hs', hc, hemp, rfl⟩
    rw [hs] at hs'
    cases Option.some.inj hs'
    rcases cleanSeason_ok hc with ⟨t0, t3, hf, hp, rfl⟩
    have htag1 := setStrColumn_tagged t0 season
    have htag2 := dropColsBelowThresh_tagged htag1
      (((setStrColumn t0 "season" season).numRows : Int) - 30)
    have htag3 := parseDates_tagged hp htag2
    have htag := dropnaSubset_tagged ["Date"] htag3
    have hmem2 := tagged_mem_thresh htag1 (setStrColumn_mem t0 season)
    rcases parseDates_ok hp with ⟨_, hcols3, _⟩
    have hmem : "season" ∈ (dropnaSubset t3 ["Date"]).cols := by
      show "season" ∈ t3.cols
      rw [hcols3]
      exact hmem2
    exact ⟨hemp, hmem, htag⟩
  · intro fetch url season t hs hc hemp
    simp [processUrl, hs, hc, hemp]

theorem failMsg_eq (u : String) :
    s!"Failed to process {u}: {keyErrorDateMsg}"
      = s!"Failed to process {u}: KeyError: Date" := by
  simp only [String.append_assoc]
  exact congrArg (fun z => toString "Failed to process " ++ z)
    (congrArg (fun z => toString u ++ z) (by decide))

/-- C9: when a downloaded season table has no Date column — absent from
the resource or removed by the sparsity pruning — the resulting lookup
error is caught by the per-season handler: the season is skipped with a
failure line naming its URL and the loop continues, leaving the other
seasons' results untouched. -/
theorem missingDateColumn_caught (fetch : String → Except String DataFrame)
    (url season : String) (df0 : DataFrame)
    (hs : seasonOf url = some season) (hf : fetch url = .ok df0)
    (hd : "Date" ∉ (dropColsBelowThresh (setStrColumn df0 "season" season)
      (((setStrColumn df0 "season" season).numRows : Int) - 30)).cols) :
    processUrl fetch url = .ok (none,
      [s!"Getting data for season {season}",
       s!"Failed to process {url}: KeyError: Date"]) ∧
    ∀ (l : List String) (d2 : List DataFrame) (g2 : List String),
      processAll fetch l = .ok (d2, g2) →
      processAll fetch (url :: l) = .ok (d2,
        [s!"Getting data for season {season}",
         s!"Failed to process {url}: KeyError: Date"] ++ g2) := by
  have hclean : cleanSeason fetch url season = .error keyErrorDateMsg := by
    simp [cleanSeason, hf, parseDates, hd]
  have hone : processUrl fetch url = .ok (none,
      [s!"Getting data for season {season}",
       s!"Failed to process {url}: KeyError: Date"]) := by
    rw [← failMsg_eq url]
    simp [processUrl, hs, hclean]
  refine ⟨hone, fun l d2 g2 h2 => ?_⟩
  rw [processAll, hone, h2]

/-! ### Closed witnesses on the fixtures -/

theorem combinedTable_complete_sorted_witness :
    noMissing dfOutW ∧
      ∃ j, j < dfOutW.cols.length ∧ dfOutW.cols.getD j "" = "Date" ∧
        sortedByCol dfOutW j :=
  combinedTable_complete_sorted linksW linksTextW fetchW dfOutW
    ["Getting data for season 9394", "Finished grabbing data."]
    (by rfl) (by decide)

theorem seasonPruning_exact_witness :
    (((colPresentCount dfW 0 : Int) < (dfW.numRows : Int) - 30) →
      dfW.cols.getD 0 "" ∉ (dropColsBelowThresh dfW ((dfW.numRows : Int) - 30)).cols) ∧
    (((dfW.numRows : Int) - 30 ≤ (colPresentCount dfW 0 : Int)) →
      dfW.cols.getD 0 "" ∈ (dropColsBelowThresh dfW ((dfW.numRows : Int) - 30)).cols) :=
  seasonPruning_exact dfW (by decide) 0 (by decide)

theorem urlSelector_lengths_witness :
    (selectDataUrls linksW linksTextW).length = linksTextW.count "Premier League" ∧
    ((trimUrls (selectDataUrls linksW linksTextW)).length : Int)
      = max 0 ((linksTextW.count "Premier League" : Int) - 12) ∧
    (linksTextW.count "Premier League" < 12 →
      trimUrls (selectDataUrls linksW linksTextW) = []) :=
  urlSelector_lengths linksW linksTextW (by decide)

theorem dateParsing_dayfirst_coerce_filter_witness :
    "Date" ∈ dfCleanW.cols ∧
    ∀ r ∈ dfCleanW.rows, ∀ j, j < dfCleanW.cols.length →
      dfCleanW.cols.getD j "" = "Date" → ∃ d, cellAt r j = Cell.date d :=
  dateParsing_dayfirst_coerce_filter.1 fetchW urlW "9394" dfCleanW (by rfl)

theorem seasonError_caught_others_unaffected_witness :
    processAll fetchW ([urlW] ++ urlErrW :: []) =
      .ok ([dfCleanW],
        ["Getting data for season 9394",
         "Getting data for season 9495",
         "Failed to process http://www.football-data.co.uk/mmz4281/9495/E0.csv: HTTPError: 404"]) :=
  seasonError_caught_others_unaffected fetchW [urlW] [] urlErrW "HTTPError: 404"
    "9495" [dfCleanW] [] ["Getting data for season 9394"] []
    (by rfl) (by rfl) (by rfl) (by rfl)

theorem appendedTables_nonEmpty_tagged_witness :
    dfCleanW.isEmptyDF = false ∧ "season" ∈ dfCleanW.cols ∧
    ∀ j, j < dfCleanW.cols.length → dfCleanW.cols.getD j "" = "season" →
      ∀ r ∈ dfCleanW.rows, cellAt r j = .str "9394" :=
  appendedTables_nonEmpty_tagged.1 fetchW urlW "9394" dfCleanW
    ["Getting data for season 9394"] (by rfl) (by rfl)

theorem emptyAccumulator_graceful_witness :
    grab_epl_data [] [] fetchW =
      .ok (DataFrame.emptyDF, ["No data was collected."]) :=
  emptyAccumulator_graceful [] [] fetchW [] (by rfl)

theorem pipeline_deterministic_witness :
    grab_epl_data linksW linksTextW fetchW = grab_epl_data linksW linksTextW fetchW :=
  pipeline_deterministic linksW linksW linksTextW linksTextW fetchW fetchW
    rfl rfl rfl

theorem missingDateColumn_caught_witness :
    (processUrl fetchW urlNoDateW = .ok (none,
      ["Getting data for season 9596",
       "Failed to process http://www.football-data.co.uk/mmz4281/9596/E0.csv: KeyError: Date"])) ∧
    ∀ (l : List String) (d2 : List DataFrame) (g2 : List String),
      processAll fetchW l = .ok (d2, g2) →
      processAll fetchW (urlNoDateW :: l) = .ok (d2,
        ["Getting data for season 9596",
         "Failed to process http://www.football-data.co.uk/mmz4281/9596/E0.csv: KeyError: Date"] ++ g2) :=
  missingDateColumn_caught fetchW urlNoDateW "9596" dfNoDateW
    (by rfl) (by rfl) (by decide)
